import Mathlib

/-!
Verification of the numpad capture subsystem of SteamDeckSoft
( src/services/input_detector.py ) against its natural-language
specification.

The Python module installs a low-level Windows keyboard hook
(WH_KEYBOARD_LL), classifies raw key events as numpad navigation
presses or back-navigation (Num Lock OFF only), suppresses claimed
events, tracks Num Lock toggles, and periodically reinstalls the hook
as an eviction countermeasure.  Below, each method of the
`InputDetector` class is embedded as a pure Lean function; OS calls
(GetKeyState, SetWindowsHookExW, thread join, ...) become explicit
parameters carrying the value the OS would return at that instant.
-/

namespace InputDetector

/-- Flag constant LLKHF_INJECTED = 0x10 from the source module. -/
def LLKHF_INJECTED : Nat := 0x10

/-- Flag constant LLKHF_EXTENDED = 0x01 from the source module. -/
def LLKHF_EXTENDED : Nat := 0x01

/-- Message constant WM_KEYDOWN = 0x0100 from the source module. -/
def WM_KEYDOWN : Nat := 0x0100

/-- Message constant WM_KEYUP = 0x0101 from the source module. -/
def WM_KEYUP : Nat := 0x0101

/-- Message constant WM_SYSKEYDOWN = 0x0104 from the source module. -/
def WM_SYSKEYDOWN : Nat := 0x0104

/-- Message constant WM_SYSKEYUP = 0x0105 from the source module. -/
def WM_SYSKEYUP : Nat := 0x0105

/-- Virtual-key constant VK_NUMLOCK = 0x90 from the source module. -/
def VK_NUMLOCK : Nat := 0x90

/-- Class constant InputDetector._POLL_MS = 50 (timer interval, ms). -/
def POLL_MS : Nat := 50

/-- Class constant InputDetector._REHOOK_TICKS = 20 (reinstall hook every 20 ticks). -/
def REHOOK_TICKS : Nat := 20

/-- Embeds the fields of KBDLLHOOKSTRUCT that the hook procedure reads:
the virtual-key code and the flags word. -/
structure KBDLLHOOKSTRUCT where
  vkCode : Nat
  flags : Nat
deriving DecidableEq, Repr

/-- Embeds the mutable fields of the Python `InputDetector` instance
(plus `thread_alive`, standing for `self._thread is not None and
self._thread.is_alive()`). -/
structure DetectorState where
  last_injected : Bool
  hook : Option Nat
  timer_id : Nat
  tick_count : Nat
  running : Bool
  thread_alive : Bool
  passthrough : Bool
  last_numlock_state : Option Bool
deriving DecidableEq, Repr

/-- Embeds `InputDetector.__init__`: the freshly constructed state. -/
def initState : DetectorState :=
  { last_injected := false
    hook := none
    timer_id := 0
    tick_count := 0
    running := false
    thread_alive := false
    passthrough := false
    last_numlock_state := none }

/-- Embeds the class-level dict `InputDetector._NUMPAD_MAP`
(dict lookup `self._NUMPAD_MAP.get(kb.vkCode)` becomes a match,
absent keys give `none`). -/
def NUMPAD_MAP (code : Nat) : Option (Nat × Nat) :=
  match code with
  | 0x24 => some (0, 0)  -- VK_HOME   → numpad 7
  | 0x26 => some (0, 1)  -- VK_UP     → numpad 8
  | 0x21 => some (0, 2)  -- VK_PRIOR  → numpad 9
  | 0x25 => some (1, 0)  -- VK_LEFT   → numpad 4
  | 0x0C => some (1, 1)  -- VK_CLEAR  → numpad 5
  | 0x27 => some (1, 2)  -- VK_RIGHT  → numpad 6
  | 0x23 => some (2, 0)  -- VK_END    → numpad 1
  | 0x28 => some (2, 1)  -- VK_DOWN   → numpad 2
  | 0x22 => some (2, 2)  -- VK_NEXT   → numpad 3
  | _ => none

/-- Embeds `InputDetector._is_numpad_nav_key`.  The ambient result of
`user32.GetKeyState(VK_NUMLOCK) & 1` at call time is passed as
`numlockRaw`. -/
def is_numpad_nav_key (kb : KBDLLHOOKSTRUCT) (numlockRaw : Bool) :
    Option (Nat × Nat) :=
  if kb.flags &&& LLKHF_INJECTED ≠ 0 then none
  else if kb.flags &&& LLKHF_EXTENDED ≠ 0 then none
  else if numlockRaw then none
  else NUMPAD_MAP kb.vkCode

/-- Embeds `InputDetector._is_numpad_zero` (numpad 0 = VK_INSERT = 0x2D
when Num Lock is OFF, non-extended, non-injected). -/
def is_numpad_zero (kb : KBDLLHOOKSTRUCT) (numlockRaw : Bool) : Bool :=
  if kb.flags &&& LLKHF_INJECTED ≠ 0 then false
  else if kb.flags &&& LLKHF_EXTENDED ≠ 0 then false
  else if numlockRaw then false
  else kb.vkCode == 0x2D

/-- Classification result in the vocabulary of the specification
(section 4.1): a button press at a 3x3 grid coordinate, or the
back-navigation logical key. -/
inductive ClassResult where
  | buttonPress (row : Nat) (col : Nat)
  | backNavigation
deriving DecidableEq, Repr

/-- Builds the KBDLLHOOKSTRUCT flags word from the specification's
`is_extended` and `is_injected` booleans. -/
def mkFlags (ext injected : Bool) : Nat :=
  (if injected then LLKHF_INJECTED else 0) +
    (if ext then LLKHF_EXTENDED else 0)

/-- Spec-style classifier interface `classify(code, ext, injected,
numlock)`, assembled from the two source helpers in the order the hook
procedure consults them: navigation table first, then numpad-zero. -/
def classify (code : Nat) (ext injected numlock : Bool) :
    Option ClassResult :=
  let kb : KBDLLHOOKSTRUCT := ⟨code, mkFlags ext injected⟩
  match is_numpad_nav_key kb numlock with
  | some pos => some (ClassResult.buttonPress pos.1 pos.2)
  | none =>
      if is_numpad_zero kb numlock then some ClassResult.backNavigation
      else none

/-- Signals emitted through `_NumpadSignal` during one hook callback:
`pressed(row, col)`, `back_pressed()`, `numlock_changed(bool)`. -/
structure HookEmits where
  pressed : Option (Nat × Nat)
  back_pressed : Bool
  numlock_changed : Option Bool
deriving DecidableEq, Repr

/-- Empty emission record (no signal fired). -/
def noEmits : HookEmits := ⟨none, false, none⟩

/-- Result of one `_hook_proc` invocation: `suppress = true` stands
for `return 1`, `suppress = false` for falling through to
`CallNextHookEx`; `emits` collects the Qt signals fired; `state` is
the updated instance state; `classified` is control-flow
instrumentation recording whether `_is_numpad_nav_key` /
`_is_numpad_zero` was invoked during the call. -/
structure HookOutcome where
  suppress : Bool
  emits : HookEmits
  state : DetectorState
  classified : Bool
deriving DecidableEq, Repr

/-- Embeds the WM_KEYDOWN / WM_SYSKEYDOWN branch of
`InputDetector._hook_proc`. -/
def hook_keydown (st : DetectorState) (kb : KBDLLHOOKSTRUCT)
    (numlockRaw : Bool) : HookOutcome :=
  let st1 := { st with last_injected := kb.flags &&& LLKHF_INJECTED ≠ 0 }
  let nlEmit : Option Bool :=
    if kb.vkCode = VK_NUMLOCK then some (! numlockRaw) else none
  let st2 :=
    if kb.vkCode = VK_NUMLOCK then
      { st1 with last_numlock_state := some (! numlockRaw) }
    else st1
  if st.passthrough = false then
    match is_numpad_nav_key kb numlockRaw with
    | some pos =>
        ⟨true, ⟨some pos, false, nlEmit⟩, st2, true⟩
    | none =>
        if is_numpad_zero kb numlockRaw then
          ⟨true, ⟨none, true, nlEmit⟩, st2, true⟩
        else
          ⟨false, ⟨none, false, nlEmit⟩, st2, true⟩
  else ⟨false, ⟨none, false, nlEmit⟩, st2, false⟩

/-- Embeds the WM_KEYUP / WM_SYSKEYUP branch of
`InputDetector._hook_proc`. -/
def hook_keyup (st : DetectorState) (kb : KBDLLHOOKSTRUCT)
    (numlockRaw : Bool) : HookOutcome :=
  if st.passthrough = false then
    if (is_numpad_nav_key kb numlockRaw).isSome then
      ⟨true, noEmits, st, true⟩
    else if is_numpad_zero kb numlockRaw then
      ⟨true, noEmits, st, true⟩
    else ⟨false, noEmits, st, true⟩
  else ⟨false, noEmits, st, false⟩

/-- Embeds `InputDetector._hook_proc`.  `numlockRaw` is the ambient
value of `user32.GetKeyState(VK_NUMLOCK) & 1` during the callback. -/
def hook_proc (st : DetectorState) (nCode : Int) (wParam : Nat)
    (kb : KBDLLHOOKSTRUCT) (numlockRaw : Bool) : HookOutcome :=
  if 0 ≤ nCode then
    if wParam = WM_KEYDOWN ∨ wParam = WM_SYSKEYDOWN then
      hook_keydown st kb numlockRaw
    else if wParam = WM_KEYUP ∨ wParam = WM_SYSKEYUP then
      hook_keyup st kb numlockRaw
    else ⟨false, noEmits, st, false⟩
  else ⟨false, noEmits, st, false⟩

/-- Embeds `InputDetector.set_passthrough`. -/
def set_passthrough (st : DetectorState) (value : Bool) : DetectorState :=
  { st with passthrough := value }

/-- Embeds `InputDetector.start`: if already running it returns at
once; otherwise it sets the running flag and spawns the daemon worker
thread.  The Python method returns None on every path — the `Unit`
component records that no error value reaches the caller. -/
def start (st : DetectorState) : DetectorState × Unit :=
  if st.running then (st, ())
  else ({ st with running := true, thread_alive := true }, ())

/-- Embeds the opening of `InputDetector._run`, executed on the

worker thread: install the hook via SetWindowsHookExW (`osHook` is
the handle it returns, `none` standing for NULL = failure); on
failure log an error and return, which ends the thread; on success
record the ambient Num Lock state (`rawNumlock`), start the 50 ms
timer (`timerId` is the id SetTimer returns) and reset the tick
counter.  The returned Bool records whether the failure path
(logger.error + early return) was taken. -/
def run_startup (st : DetectorState) (osHook : Option Nat)
    (rawNumlock : Bool) (timerId : Nat) : DetectorState × Bool :=
  match osHook with
  | none => ({ st with hook := none, thread_alive := false }, true)
  | some h =>
      ({ st with
          hook := some h
          last_numlock_state := some rawNumlock
          timer_id := timerId
          tick_count := 0 }, false)

/-- Embeds `InputDetector._reinstall_hook`: unhook the previous
registration if one exists, then install afresh (`osHook` is the
handle the new SetWindowsHookExW call returns).  Returns the new
state, whether UnhookWindowsHookEx was called, and whether the
failure warning was logged (`osHook.isNone`).  The Python method
raises nothing on failure: it only logs and returns. -/
def reinstall_hook (st : DetectorState) (osHook : Option Nat) :
    DetectorState × Bool × Bool :=
  ({ st with hook := osHook }, st.hook.isSome, osHook.isNone)

/-- Embeds `InputDetector._on_tick` (called every 50 ms): poll Num
Lock (`rawNumlock`) and emit `numlock_changed` when the polled value
differs from the last known one; every `_REHOOK_TICKS` ticks, reset
the counter and reinstall the hook (`osHook` is what the reinstall
attempt would obtain).  Returns the new state, the emitted payload if
any, and whether `_reinstall_hook` was invoked on this tick. -/
def on_tick (st : DetectorState) (rawNumlock : Bool)
    (osHook : Option Nat) : DetectorState × Option Bool × Bool :=
  let pair :=
    if some rawNumlock ≠ st.last_numlock_state then
      (some rawNumlock,
        { st with last_numlock_state := some rawNumlock })
    else ((none : Option Bool), st)
  let st2 := { pair.2 with tick_count := pair.2.tick_count + 1 }
  if st2.tick_count ≥ REHOOK_TICKS then
    ((reinstall_hook { st2 with tick_count := 0 } osHook).1, pair.1, true)
  else (st2, pair.1, false)

/-- Iterates `_on_tick` with a fixed polled Num Lock state and a
fixed OS response to reinstall attempts. -/
def iterTicks : Nat → DetectorState → Bool → Option Nat → DetectorState
  | 0, st, _, _ => st
  | n + 1, st, raw, os => (on_tick (iterTicks n st raw os) raw os).1

/-- Embeds the epilogue of `InputDetector._run` (after the message
loop exits): kill the timer if one is set, unhook if a hook is set;
the worker thread then terminates. -/
def run_epilogue (st : DetectorState) : DetectorState :=
  let st1 := if st.timer_id ≠ 0 then { st with timer_id := 0 } else st
  let st2 := if st1.hook.isSome then { st1 with hook := none } else st1
  { st2 with thread_alive := false }

/-- Embeds `InputDetector.stop`: clear the running flag; if the
worker thread is alive, post WM_QUIT to it and join with a 2-second
timeout.  `joinCompletes` records whether the worker ran its epilogue
within that bound.  Returns the new state, whether a quit message was
posted, and the join timeout used in seconds (`none` when no join was
performed).  Every path returns normally: nothing raises. -/
def stop (st : DetectorState) (joinCompletes : Bool) :
    DetectorState × Bool × Option Nat :=
  if st.thread_alive then
    if joinCompletes then
      (run_epilogue { st with running := false }, true, some 2)
    else ({ st with running := false }, true, some 2)
  else ({ st with running := false }, false, none)

end InputDetector

namespace InputDetector

/-- Helper: under any gating condition the navigation classifier
yields `none`. -/
theorem nav_gated (kb : KBDLLHOOKSTRUCT) (numlockRaw : Bool)
    (h : kb.flags &&& LLKHF_INJECTED ≠ 0 ∨
         kb.flags &&& LLKHF_EXTENDED ≠ 0 ∨ numlockRaw = true) :
    is_numpad_nav_key kb numlockRaw = none := by
  unfold is_numpad_nav_key
  rcases h with h | h | h
  · simp [h]
  · by_cases hi : kb.flags &&& LLKHF_INJECTED ≠ 0 <;> simp [hi, h]
  · subst h
    by_cases hi : kb.flags &&& LLKHF_INJECTED ≠ 0 <;>
      by_cases he : kb.flags &&& LLKHF_EXTENDED ≠ 0 <;>
        simp [hi, he]

/-- Helper: under any gating condition the numpad-zero classifier
yields `false`. -/
theorem zero_gated (kb : KBDLLHOOKSTRUCT) (numlockRaw : Bool)
    (h : kb.flags &&& LLKHF_INJECTED ≠ 0 ∨
         kb.flags &&& LLKHF_EXTENDED ≠ 0 ∨ numlockRaw = true) :
    is_numpad_zero kb numlockRaw = false := by
  unfold is_numpad_zero
  rcases h with h | h | h
  · simp [h]
  · by_cases hi : kb.flags &&& LLKHF_INJECTED ≠ 0 <;> simp [hi, h]
  · subst h
    by_cases hi : kb.flags &&& LLKHF_INJECTED ≠ 0 <;>
      by_cases he : kb.flags &&& LLKHF_EXTENDED ≠ 0 <;>
        simp [hi, he]

/-- C1: whenever a gating condition holds (injected flag set, extended
flag set, or Num Lock on), the classifier returns None — no button
press, no back navigation — and the hook procedure does not suppress
the event; in particular each of the nine navigation-table codes with
injected=true, ext=false, numlock=false classifies to None. -/
theorem C1_gating_returns_none (st : DetectorState) (nCode : Int)
    (wParam : Nat) (kb : KBDLLHOOKSTRUCT) (numlockRaw : Bool)
    (h : kb.flags &&& LLKHF_INJECTED ≠ 0 ∨
         kb.flags &&& LLKHF_EXTENDED ≠ 0 ∨ numlockRaw = true) :
    is_numpad_nav_key kb numlockRaw = none ∧
    is_numpad_zero kb numlockRaw = false ∧
    (hook_proc st nCode wParam kb numlockRaw).emits.pressed = none ∧
    (hook_proc st nCode wParam kb numlockRaw).emits.back_pressed = false ∧
    (hook_proc st nCode wParam kb numlockRaw).suppress = false ∧
    (∀ code ∈ [0x24, 0x26, 0x21, 0x25, 0x0C, 0x27, 0x23, 0x28, 0x22],
      classify code false true false = none) := by
  have hnav := nav_gated kb numlockRaw h
  have hzero := zero_gated kb numlockRaw h
  refine ⟨hnav, hzero, ?_, ?_, ?_, ?_⟩
  · unfold hook_proc hook_keydown hook_keyup
    split
    · split
      · simp [hnav, hzero]
        split <;> split <;> simp [noEmits]
      · split
        · simp [hnav, hzero, noEmits]
          split <;> simp
        · rfl
    · rfl
  · unfold hook_proc hook_keydown hook_keyup
    split
    · split
      · simp [hnav, hzero]
        split <;> split <;> simp [noEmits]
      · split
        · simp [hnav, hzero, noEmits]
          split <;> simp
        · rfl
    · rfl
  · unfold hook_proc hook_keydown hook_keyup
    split
    · split
      · simp [hnav, hzero]
        split <;> split <;> simp [noEmits]
      · split
        · simp [hnav, hzero, noEmits]
          split <;> simp
        · rfl
    · rfl
  · decide

/-- Witness for C1 at a concrete gated input: VK_UP with the injected
flag set, keydown, Num Lock off. -/
theorem C1_gating_returns_none_witness :
    is_numpad_nav_key ⟨0x26, 0x10⟩ false = none ∧
    is_numpad_zero ⟨0x26, 0x10⟩ false = false ∧
    (hook_proc initState 0 WM_KEYDOWN ⟨0x26, 0x10⟩ false).emits.pressed
      = none ∧
    (hook_proc initState 0 WM_KEYDOWN ⟨0x26, 0x10⟩ false).emits.back_pressed
      = false ∧
    (hook_proc initState 0 WM_KEYDOWN ⟨0x26, 0x10⟩ false).suppress = false ∧
    (∀ code ∈ [0x24, 0x26, 0x21, 0x25, 0x0C, 0x27, 0x23, 0x28, 0x22],
      classify code false true false = none) :=
  C1_gating_returns_none initState 0 WM_KEYDOWN ⟨0x26, 0x10⟩ false
    (Or.inl (by decide))

/-- Helper: a virtual-key code absent from the navigation table never
classifies as a navigation key, whatever the flags. -/
theorem nav_none_of_not_in_table (kb : KBDLLHOOKSTRUCT) (raw : Bool)
    (h : NUMPAD_MAP kb.vkCode = none) :
    is_numpad_nav_key kb raw = none := by
  unfold is_numpad_nav_key
  split
  · rfl
  · split
    · rfl
    · split
      · rfl
      · exact h

/-- Helper: a virtual-key code other than VK_INSERT (0x2D) never
classifies as numpad zero, whatever the flags. -/
theorem zero_false_of_ne (kb : KBDLLHOOKSTRUCT) (raw : Bool)
    (h : kb.vkCode ≠ 0x2D) :
    is_numpad_zero kb raw = false := by
  unfold is_numpad_zero
  split
  · rfl
  · split
    · rfl
    · split
      · rfl
      · simp [h]

/-- C2: with injected=false, extended=false and Num Lock off, the
navigation classifier realises exactly the nine-entry table
VK_HOME→(0,0), VK_UP→(0,1), VK_PRIOR→(0,2), VK_LEFT→(1,0),
VK_CLEAR→(1,1), VK_RIGHT→(1,2), VK_END→(2,0), VK_DOWN→(2,1),
VK_NEXT→(2,2), and any code outside the table yields None; in
particular classify(VK_UP, ext=false) = ButtonPress(0,1) while
classify(VK_UP, ext=true) = None. -/
theorem C2_nav_table_exact :
    is_numpad_nav_key ⟨0x24, mkFlags false false⟩ false = some (0, 0) ∧
    is_numpad_nav_key ⟨0x26, mkFlags false false⟩ false = some (0, 1) ∧
    is_numpad_nav_key ⟨0x21, mkFlags false false⟩ false = some (0, 2) ∧
    is_numpad_nav_key ⟨0x25, mkFlags false false⟩ false = some (1, 0) ∧
    is_numpad_nav_key ⟨0x0C, mkFlags false false⟩ false = some (1, 1) ∧
    is_numpad_nav_key ⟨0x27, mkFlags false false⟩ false = some (1, 2) ∧
    is_numpad_nav_key ⟨0x23, mkFlags false false⟩ false = some (2, 0) ∧
    is_numpad_nav_key ⟨0x28, mkFlags false false⟩ false = some (2, 1) ∧
    is_numpad_nav_key ⟨0x22, mkFlags false false⟩ false = some (2, 2) ∧
    (∀ c, c ∉ ([0x24, 0x26, 0x21, 0x25, 0x0C, 0x27, 0x23, 0x28, 0x22] :
        List Nat) →
      is_numpad_nav_key ⟨c, mkFlags false false⟩ false = none) ∧
    classify 0x26 false false false = some (ClassResult.buttonPress 0 1) ∧
    classify 0x26 true false false = none := by
  refine ⟨by decide, by decide, by decide, by decide, by decide, by decide,
    by decide, by decide, by decide, ?_, by decide, by decide⟩
  intro c hc
  apply nav_none_of_not_in_table
  unfold NUMPAD_MAP
  split <;> simp_all

/-- Witness for C2 at a concrete out-of-table code: VK_SPACE (0x20)
does not classify. -/
theorem C2_nav_table_exact_witness :
    is_numpad_nav_key ⟨0x20, mkFlags false false⟩ false = none :=
  C2_nav_table_exact.2.2.2.2.2.2.2.2.2.1 0x20 (by decide)

/-- C3: on a key-down of the Num Lock toggle key, the published
NumLockChanged payload is the logical negation of the raw OS toggle
state read at callback time (the post-toggle state), and it is also
recorded in `last_numlock_state`; if the raw state reads false the
payload is true. -/
theorem C3_numlock_edge_inversion (st : DetectorState) (nCode : Int)
    (wParam : Nat) (kb : KBDLLHOOKSTRUCT) (raw : Bool)
    (h1 : 0 ≤ nCode)
    (h2 : wParam = WM_KEYDOWN ∨ wParam = WM_SYSKEYDOWN)
    (h3 : kb.vkCode = VK_NUMLOCK) :
    (hook_proc st nCode wParam kb raw).emits.numlock_changed
      = some (! raw) ∧
    (hook_proc st nCode wParam kb raw).state.last_numlock_state
      = some (! raw) ∧
    (raw = false →
      (hook_proc st nCode wParam kb raw).emits.numlock_changed
        = some true) := by
  have hnav : is_numpad_nav_key kb raw = none := by
    apply nav_none_of_not_in_table
    rw [h3]
    rfl
  have hzero : is_numpad_zero kb raw = false := by
    apply zero_false_of_ne
    rw [h3]
    decide
  have hmain :
      (hook_proc st nCode wParam kb raw).emits.numlock_changed
        = some (! raw) ∧
      (hook_proc st nCode wParam kb raw).state.last_numlock_state
        = some (! raw) := by
    unfold hook_proc hook_keydown
    simp only [h1, if_true, h2, if_pos, hnav, hzero, h3]
    split <;> simp
  refine ⟨hmain.1, hmain.2, ?_⟩
  intro hr
  rw [hmain.1, hr]
  rfl

/-- Witness for C3: pressing VK_NUMLOCK while the raw state reads
false publishes `some true`. -/
theorem C3_numlock_edge_inversion_witness :
    (hook_proc initState 0 WM_KEYDOWN ⟨0x90, 0⟩ false).emits.numlock_changed
      = some true ∧
    (hook_proc initState 0 WM_KEYDOWN ⟨0x90, 0⟩ false).state.last_numlock_state
      = some true :=
  ⟨(C3_numlock_edge_inversion initState 0 WM_KEYDOWN ⟨0x90, 0⟩ false
      (by decide) (Or.inl rfl) rfl).2.2 rfl,
   by
    have h := (C3_numlock_edge_inversion initState 0 WM_KEYDOWN ⟨0x90, 0⟩
      false (by decide) (Or.inl rfl) rfl).2.1
    simpa using h⟩

/-- C10: one hook callback never emits both a button press and a back
navigation: the navigation table and the back-navigation code 0x2D
are disjoint, and the button-press branch returns before the
back-navigation check runs. -/
theorem C10_at_most_one_notification (st : DetectorState) (nCode : Int)
    (wParam : Nat) (kb : KBDLLHOOKSTRUCT) (raw : Bool) :
    ((hook_proc st nCode wParam kb raw).emits.pressed.isSome &&
      (hook_proc st nCode wParam kb raw).emits.back_pressed) = false ∧
    NUMPAD_MAP 0x2D = none := by
  constructor
  · unfold hook_proc hook_keydown hook_keyup
    repeat' split
    all_goals simp [noEmits]
  · decide

/-- Helper: the hook callback never mutates the passthrough flag. -/
theorem hook_preserves_passthrough (st : DetectorState) (nCode : Int)
    (wParam : Nat) (kb : KBDLLHOOKSTRUCT) (raw : Bool) :
    (hook_proc st nCode wParam kb raw).state.passthrough
      = st.passthrough := by
  unfold hook_proc hook_keydown hook_keyup
  repeat' split
  all_goals simp [noEmits]

/-- Helper: with a non-negative hook code, a WM_KEYDOWN message
dispatches to the key-down branch. -/
theorem hook_proc_keydown_eq (st : DetectorState) (nCode : Int)
    (kb : KBDLLHOOKSTRUCT) (raw : Bool) (h1 : 0 ≤ nCode) :
    hook_proc st nCode WM_KEYDOWN kb raw = hook_keydown st kb raw := by
  unfold hook_proc
  simp [h1]

/-- Helper: with a non-negative hook code, a WM_KEYUP message
dispatches to the key-up branch. -/
theorem hook_proc_keyup_eq (st : DetectorState) (nCode : Int)
    (kb : KBDLLHOOKSTRUCT) (raw : Bool) (h1 : 0 ≤ nCode) :
    hook_proc st nCode WM_KEYUP kb raw = hook_keyup st kb raw := by
  unfold hook_proc
  simp [h1, WM_KEYUP, WM_KEYDOWN, WM_SYSKEYDOWN, WM_SYSKEYUP]

/-- Helper: with passthrough disabled, the key-down branch suppresses
any event that classifies as navigation or numpad zero. -/
theorem keydown_suppress_of_hit (st : DetectorState)
    (kb : KBDLLHOOKSTRUCT) (raw : Bool)
    (hp : st.passthrough = false)
    (hc : (is_numpad_nav_key kb raw).isSome = true ∨
          is_numpad_zero kb raw = true) :
    (hook_keydown st kb raw).suppress = true := by
  unfold hook_keydown
  rcases hn : is_numpad_nav_key kb raw with _ | pos
  · rcases hc with hc | hc
    · rw [hn] at hc
      exact absurd hc (by decide)
    · simp [hp, hn, hc]
  · simp [hp, hn]

/-- Helper: with passthrough disabled, the key-up branch suppresses
any event that classifies as navigation or numpad zero. -/
theorem keyup_suppress_of_hit (st : DetectorState)
    (kb : KBDLLHOOKSTRUCT) (raw : Bool)
    (hp : st.passthrough = false)
    (hc : (is_numpad_nav_key kb raw).isSome = true ∨
          is_numpad_zero kb raw = true) :
    (hook_keyup st kb raw).suppress = true := by
  unfold hook_keyup
  rcases hc with hc | hc
  · simp [hp, hc]
  · rcases hn : is_numpad_nav_key kb raw with _ | pos
    · simp [hp, hn, hc]
    · simp [hp, hn]

/-- C4: with passthrough disabled, an event that classifies as a
button press or back navigation is suppressed on its key-down, and
the matching key-up (same key struct, same Num Lock state, processed
from the post-key-down instance state) is suppressed as well. -/
theorem C4_suppress_down_and_up (st : DetectorState) (nCode : Int)
    (kb : KBDLLHOOKSTRUCT) (raw : Bool)
    (hp : st.passthrough = false)
    (h1 : 0 ≤ nCode)
    (hc : (is_numpad_nav_key kb raw).isSome = true ∨
          is_numpad_zero kb raw = true) :
    (hook_proc st nCode WM_KEYDOWN kb raw).suppress = true ∧
    (hook_proc (hook_proc st nCode WM_KEYDOWN kb raw).state
        nCode WM_KEYUP kb raw).suppress = true := by
  have hp2 : (hook_proc st nCode WM_KEYDOWN kb raw).state.passthrough
      = false := by
    rw [hook_preserves_passthrough]
    exact hp
  constructor
  · rw [hook_proc_keydown_eq st nCode kb raw h1]
    exact keydown_suppress_of_hit st kb raw hp hc
  · rw [hook_proc_keyup_eq _ nCode kb raw h1]
    exact keyup_suppress_of_hit _ kb raw hp2 hc

/-- Witness for C4: a key-down/key-up pair of non-extended,
non-injected VK_UP with Num Lock off is suppressed twice. -/
theorem C4_suppress_down_and_up_witness :
    (hook_proc initState 0 WM_KEYDOWN ⟨0x26, 0⟩ false).suppress = true ∧
    (hook_proc (hook_proc initState 0 WM_KEYDOWN ⟨0x26, 0⟩ false).state
        0 WM_KEYUP ⟨0x26, 0⟩ false).suppress = true :=
  C4_suppress_down_and_up initState 0 ⟨0x26, 0⟩ false rfl (by decide)
    (Or.inl (by decide))

/-- Instance state with passthrough enabled (after
`set_passthrough(True)`). -/
def ptState : DetectorState := { initState with passthrough := true }

/-- Helper: with passthrough enabled, the key-down branch suppresses
nothing, emits no press or back-navigation, and skips
classification. -/
theorem keydown_passthrough_fields (st : DetectorState)
    (kb : KBDLLHOOKSTRUCT) (raw : Bool) (hp : st.passthrough = true) :
    (hook_keydown st kb raw).suppress = false ∧
    (hook_keydown st kb raw).classified = false ∧
    (hook_keydown st kb raw).emits.pressed = none ∧
    (hook_keydown st kb raw).emits.back_pressed = false := by
  unfold hook_keydown
  simp [hp]

/-- Helper: with passthrough enabled, the key-up branch suppresses
nothing and skips classification. -/
theorem keyup_passthrough_fields (st : DetectorState)
    (kb : KBDLLHOOKSTRUCT) (raw : Bool) (hp : st.passthrough = true) :
    (hook_keyup st kb raw).suppress = false ∧
    (hook_keyup st kb raw).classified = false := by
  unfold hook_keyup
  simp [hp]

/-- C5 counterexample: with passthrough enabled, for a
numpad-8-equivalent key-down/key-up pair (VK_UP, non-extended,
non-injected, Num Lock off) the classification helpers are never
invoked — the `classified` instrumentation is false for both events —
so classification does not, contrary to the claim, still run for
diagnostics (the key would classify as (0,1) had it run). -/
theorem C5_counterexample :
    is_numpad_nav_key ⟨0x26, 0⟩ false = some (0, 1) ∧
    (hook_proc ptState 0 WM_KEYDOWN ⟨0x26, 0⟩ false).classified = false ∧
    (hook_proc ptState 0 WM_KEYUP ⟨0x26, 0⟩ false).classified = false := by
  decide

/-- C5 amended: with passthrough enabled, nothing is suppressed — the
suppression decision is false for both the key-down and the key-up —
no button-press or back-navigation signal is emitted, and the
classification helpers are skipped entirely (not run for
diagnostics). -/
theorem C5_passthrough_no_suppress (st : DetectorState) (nCode : Int)
    (kb : KBDLLHOOKSTRUCT) (raw : Bool)
    (hp : st.passthrough = true) (h1 : 0 ≤ nCode) :
    (hook_proc st nCode WM_KEYDOWN kb raw).suppress = false ∧
    (hook_proc st nCode WM_KEYDOWN kb raw).classified = false ∧
    (hook_proc st nCode WM_KEYDOWN kb raw).emits.pressed = none ∧
    (hook_proc st nCode WM_KEYDOWN kb raw).emits.back_pressed = false ∧
    (hook_proc (hook_proc st nCode WM_KEYDOWN kb raw).state
        nCode WM_KEYUP kb raw).suppress = false ∧
    (hook_proc (hook_proc st nCode WM_KEYDOWN kb raw).state
        nCode WM_KEYUP kb raw).classified = false := by
  have hp2 : (hook_proc st nCode WM_KEYDOWN kb raw).state.passthrough
      = true := by
    rw [hook_preserves_passthrough]
    exact hp
  rw [hook_proc_keydown_eq st nCode kb raw h1,
    hook_proc_keyup_eq _ nCode kb raw h1]
  rw [hook_proc_keydown_eq st nCode kb raw h1] at hp2
  obtain ⟨a, b, c, d⟩ := keydown_passthrough_fields st kb raw hp
  obtain ⟨e, f⟩ := keyup_passthrough_fields _ kb raw hp2
  exact ⟨a, b, c, d, e, f⟩

/-- Witness for C5 amended: passthrough state, VK_UP pair, Num Lock
off. -/
theorem C5_passthrough_no_suppress_witness :
    (hook_proc ptState 0 WM_KEYDOWN ⟨0x26, 0⟩ false).suppress = false ∧
    (hook_proc ptState 0 WM_KEYDOWN ⟨0x26, 0⟩ false).classified = false ∧
    (hook_proc ptState 0 WM_KEYDOWN ⟨0x26, 0⟩ false).emits.pressed
      = none ∧
    (hook_proc ptState 0 WM_KEYDOWN ⟨0x26, 0⟩ false).emits.back_pressed
      = false ∧
    (hook_proc (hook_proc ptState 0 WM_KEYDOWN ⟨0x26, 0⟩ false).state
        0 WM_KEYUP ⟨0x26, 0⟩ false).suppress = false ∧
    (hook_proc (hook_proc ptState 0 WM_KEYDOWN ⟨0x26, 0⟩ false).state
        0 WM_KEYUP ⟨0x26, 0⟩ false).classified = false :=
  C5_passthrough_no_suppress ptState 0 ⟨0x26, 0⟩ false rfl (by decide)

/-- C8 counterexample: VK_DELETE (0x2E, numpad period equivalent) is
NOT recognized by the code — under the gating conditions it
classifies to None, `_is_numpad_zero` rejects it, and its key-down
emits no back-navigation and is not suppressed — contrary to the
claim that both zero/period-equivalent codes classify as
BackNavigation. -/
theorem C8_counterexample :
    classify 0x2E false false false = none ∧
    is_numpad_zero ⟨0x2E, 0⟩ false = false ∧
    (hook_proc initState 0 WM_KEYDOWN ⟨0x2E, 0⟩ false).emits.back_pressed
      = false ∧
    (hook_proc initState 0 WM_KEYDOWN ⟨0x2E, 0⟩ false).suppress
      = false := by
  decide

/-- C8 amended: under the gating conditions only VK_INSERT (0x2D,
numpad 0) classifies as BackNavigation; its key-down fires the
back-navigation signal exactly once (and no button press) and is
suppressed, while VK_DELETE (0x2E, numpad period) yields None. -/
theorem C8_insert_back_navigation :
    classify 0x2D false false false = some ClassResult.backNavigation ∧
    (hook_proc initState 0 WM_KEYDOWN ⟨0x2D, 0⟩ false).emits.back_pressed
      = true ∧
    (hook_proc initState 0 WM_KEYDOWN ⟨0x2D, 0⟩ false).emits.pressed
      = none ∧
    (hook_proc initState 0 WM_KEYDOWN ⟨0x2D, 0⟩ false).suppress = true ∧
    classify 0x2E false false false = none := by
  decide

/-- C6 counterexample: from the freshly constructed state, `start()`
returns Unit (no error value on any path) before the worker thread
even attempts installation; when SetWindowsHookExW then fails
(returns NULL), the worker only logs and exits, the hook stays unset,
and the running flag remains true — the service does not remain in
(or return to) the Stopped state and no distinguishable error reaches
the caller. -/
theorem C6_counterexample :
    (start initState).1.running = true ∧
    (run_startup (start initState).1 none false 0).2 = true ∧
    (run_startup (start initState).1 none false 0).1.running = true ∧
    (run_startup (start initState).1 none false 0).1.hook = none ∧
    (run_startup (start initState).1 none false 0).1.thread_alive
      = false := by
  decide

/-- C6 amended: `start()` from a non-running state unconditionally
sets the running flag and spawns the worker; a hook-installation
failure is handled entirely inside the worker — the failure path is
taken (an error is logged), the thread exits with no hook installed —
while the running flag stays true and the caller receives no error
value. -/
theorem C6_start_failure_swallowed (st : DetectorState) (raw : Bool)
    (tid : Nat) (h : st.running = false) :
    (start st).1.running = true ∧
    (start st).1.thread_alive = true ∧
    (run_startup (start st).1 none raw tid).2 = true ∧
    (run_startup (start st).1 none raw tid).1.hook = none ∧
    (run_startup (start st).1 none raw tid).1.thread_alive = false ∧
    (run_startup (start st).1 none raw tid).1.running = true := by
  unfold start run_startup
  simp [h]

/-- Witness for C6 amended: the fresh state with a failing
SetWindowsHookExW call. -/
theorem C6_start_failure_swallowed_witness :
    (start initState).1.running = true ∧
    (start initState).1.thread_alive = true ∧
    (run_startup (start initState).1 none false 0).2 = true ∧
    (run_startup (start initState).1 none false 0).1.hook = none ∧
    (run_startup (start initState).1 none false 0).1.thread_alive
      = false ∧
    (run_startup (start initState).1 none false 0).1.running = true :=
  C6_start_failure_swallowed initState false 0 rfl

/-- Helper: one tick increments the counter modulo the rehook period
and fires a reinstall exactly when the period elapses. -/
theorem on_tick_count_fire (st : DetectorState) (raw : Bool)
    (os : Option Nat) :
    (on_tick st raw os).1.tick_count
      = (if REHOOK_TICKS ≤ st.tick_count + 1 then 0
         else st.tick_count + 1) ∧
    ((on_tick st raw os).2.2 = true ↔
      REHOOK_TICKS ≤ st.tick_count + 1) := by
  unfold on_tick reinstall_hook
  split <;> simp <;> split <;> simp_all

/-- Helper: from a freshly reset counter, the counter after n ticks
is n modulo the rehook period. -/
theorem iterTicks_count (st : DetectorState) (raw : Bool)
    (os : Option Nat) (h0 : st.tick_count = 0) (n : Nat) :
    (iterTicks n st raw os).tick_count = n % REHOOK_TICKS := by
  induction n with
  | zero => simpa [iterTicks] using h0
  | succ n ih =>
      unfold iterTicks
      rw [(on_tick_count_fire (iterTicks n st raw os) raw os).1, ih]
      unfold REHOOK_TICKS at *
      split <;> omega

/-- C7: the liveness job — `_REHOOK_TICKS` ticks of the 50 ms timer
make about one second; a tick fires `_reinstall_hook` exactly when
the period elapses and resets the counter; `_reinstall_hook`
unconditionally replaces the registration (unhooking the previous
one whenever it exists, valid or not); a failed attempt only sets the
logged-warning flag and leaves no hook, and from a reset counter the
attempt recurs on every 20th subsequent tick. -/
theorem C7_liveness_rehook (st : DetectorState) (raw : Bool)
    (os : Option Nat) (h0 : st.tick_count = 0) :
    REHOOK_TICKS * POLL_MS = 1000 ∧
    (∀ st2 : DetectorState, ∀ raw2 : Bool, ∀ os2 : Option Nat,
      ((on_tick st2 raw2 os2).2.2 = true ↔
        REHOOK_TICKS ≤ st2.tick_count + 1)) ∧
    (∀ st2 : DetectorState, ∀ os2 : Option Nat,
      (reinstall_hook st2 os2).1.hook = os2 ∧
      (reinstall_hook st2 os2).2.1 = st2.hook.isSome) ∧
    (∀ st2 : DetectorState, (reinstall_hook st2 none).1.hook = none ∧
      (reinstall_hook st2 none).2.2 = true) ∧
    (∀ n, (iterTicks n st raw os).tick_count = n % REHOOK_TICKS) ∧
    (∀ n, ((on_tick (iterTicks n st raw os) raw os).2.2 = true ↔
      (n + 1) % REHOOK_TICKS = 0)) := by
  refine ⟨by decide, ?_, ?_, ?_, iterTicks_count st raw os h0, ?_⟩
  · intro st2 raw2 os2
    exact (on_tick_count_fire st2 raw2 os2).2
  · intro st2 os2
    exact ⟨rfl, rfl⟩
  · intro st2
    exact ⟨rfl, rfl⟩
  · intro n
    rw [(on_tick_count_fire (iterTicks n st raw os) raw os).2,
      iterTicks_count st raw os h0 n]
    unfold REHOOK_TICKS
    omega

/-- Witness for C7: from the fresh state (counter 0), with every
reinstall attempt failing, the 20th tick fires the reinstall and the
attempt recurs with period 20; the period times the 50 ms interval is
one second. -/
theorem C7_liveness_rehook_witness :
    REHOOK_TICKS * POLL_MS = 1000 ∧
    ((on_tick (iterTicks 19 initState false none) false none).2.2
      = true ↔ (19 + 1) % REHOOK_TICKS = 0) ∧
    ((on_tick (iterTicks 39 initState false none) false none).2.2
      = true ↔ (39 + 1) % REHOOK_TICKS = 0) :=
  ⟨(C7_liveness_rehook initState false none rfl).1,
   (C7_liveness_rehook initState false none rfl).2.2.2.2.2 19,
   (C7_liveness_rehook initState false none rfl).2.2.2.2.2 39⟩

/-- Helper: overwriting the running flag with false is the identity
on a state whose running flag is already false. -/
theorem set_running_false_eq (st : DetectorState)
    (h : st.running = false) :
    ({ st with running := false } : DetectorState) = st := by
  rcases st with ⟨a, b, c, d, e, f, g, i⟩
  simp_all

/-- Helper: `stop` on a state whose worker thread is not alive and
whose running flag is clear changes nothing, posts nothing and never
waits. -/
theorem stop_noop (st : DetectorState) (j : Bool)
    (ht : st.thread_alive = false) (hr : st.running = false) :
    (stop st j).1 = st ∧ (stop st j).2.1 = false ∧
    (stop st j).2.2 = none := by
  rcases st with ⟨a, b, c, d, e, f, g, i⟩
  simp_all [stop]

/-- Helper: after a `stop` whose join completed, the worker thread is
gone and the running flag is clear. -/
theorem stop_state_stopped (st : DetectorState) :
    (stop st true).1.thread_alive = false ∧
    (stop st true).1.running = false := by
  rcases st with ⟨a, b, c, d, e, f, g, i⟩
  by_cases hf : f = true <;>
    by_cases hb : (b : Option Nat).isSome = true <;>
      by_cases hc : c = 0 <;>
        simp_all [stop, run_epilogue]

/-- C9: `stop()` is a no-op when the worker thread never existed or
the service is already stopped; it is idempotent (a second call after
a completed stop changes nothing, posts nothing and performs no
join); with a live worker it releases the hook and the timer and
clears the running flag; and every call either performs no join at
all or joins with the fixed 2-second bound — there is no unbounded
wait, and every path returns normally. -/
theorem C9_stop_idempotent_bounded :
    (∀ st : DetectorState, ∀ j : Bool, st.thread_alive = false →
      st.running = false →
      (stop st j).1 = st ∧ (stop st j).2.1 = false ∧
      (stop st j).2.2 = none) ∧
    (∀ st : DetectorState, ∀ j : Bool,
      (stop ((stop st true).1) j).1 = (stop st true).1 ∧
      (stop ((stop st true).1) j).2.2 = none) ∧
    (∀ st : DetectorState, st.thread_alive = true →
      (stop st true).1.hook = none ∧
      (stop st true).1.timer_id = 0 ∧
      (stop st true).1.thread_alive = false ∧
      (stop st true).1.running = false) ∧
    (∀ st : DetectorState, ∀ j : Bool,
      (stop st j).2.2 = none ∨ (stop st j).2.2 = some 2) := by
  refine ⟨?_, ?_, ?_, ?_⟩
  · intro st j ht hr
    exact stop_noop st j ht hr
  · intro st j
    obtain ⟨ht, hr⟩ := stop_state_stopped st
    obtain ⟨h1, _, h3⟩ := stop_noop ((stop st true).1) j ht hr
    exact ⟨h1, h3⟩
  · intro st ht
    rcases st with ⟨a, b, c, d, e, f, g, i⟩
    by_cases hb : (b : Option Nat).isSome = true <;> by_cases hc : c = 0 <;>
      simp_all [stop, run_epilogue, Option.not_isSome_iff_eq_none]
  · intro st j
    by_cases ht : st.thread_alive = true <;> by_cases hj : j = true <;>
      simp [stop, ht, hj]

/-- A running service state with a live worker, an installed hook
and an armed timer, as reached after a successful `start()`. -/
def runState : DetectorState :=
  { initState with
      running := true
      thread_alive := true
      hook := some 1
      timer_id := 7 }

/-- Witness for C9: stopping the fresh (never-started) instance is a
no-op with no wait; stopping a running instance with a live worker,
installed hook and armed timer releases both. -/
theorem C9_stop_idempotent_bounded_witness :
    ((stop initState true).1 = initState ∧
      (stop initState true).2.1 = false ∧
      (stop initState true).2.2 = none) ∧
    ((stop runState true).1.hook = none ∧
      (stop runState true).1.timer_id = 0 ∧
      (stop runState true).1.thread_alive = false ∧
      (stop runState true).1.running = false) :=
  ⟨C9_stop_idempotent_bounded.1 initState true rfl rfl,
   C9_stop_idempotent_bounded.2.2.1 runState rfl⟩

end InputDetector
